import Mathlib

/-!
Verification development for the browser-side control layer of InvokeAI:
the control-adapter auto-preprocess listener effect
(`controlAdapterPreprocessor.ts`) and the app-info / invocation-cache
endpoint declarations (`appInfo.ts`).

The effect is embedded shallowly as a pure function from the trigger
context and an environment (the outcomes of the asynchronous awaits:
enqueue response, socket events, image-DTO fetch, abort signal) to a
trace: the redux actions dispatched on the effect's own control path, the
actions dispatched later by un-awaited `cancelProcessorBatch`
continuations (`deferred`), the network calls issued in order, and a
run outcome.
-/

namespace InvokeAI

/-- An image DTO as the effect observes it: only the name is consumed. -/
structure ImageDTO where
  image_name : String
  deriving DecidableEq

/-- A processor configuration; the effect only reads its `type` tag
(`CA_PROCESSOR_DATA[config.type]`). -/
structure ProcessorConfig where
  type : String
  deriving DecidableEq

/-- The slice of a control-adapter layer the effect reads and writes:
`layer.id`, `layer.controlAdapter.image`, `.processorConfig`,
`.processedImage` and `.processorPendingBatchId`. -/
structure ControlAdapterLayer where
  id : String
  image : Option ImageDTO
  processorConfig : Option ProcessorConfig
  processedImage : Option ImageDTO
  processorPendingBatchId : Option String
  deriving DecidableEq

/-- The processor graph node built by `CA_PROCESSOR_DATA[config.type].buildNode`. -/
structure ProcessorNode where
  id : String
  kind : String
  image_name : String
  is_intermediate : Bool
  deriving DecidableEq

/-- The `BatchConfig` passed to `enqueueBatch`: one node, `prepend: true`,
`runs: 1`, node marked intermediate. -/
structure BatchConfig where
  prepend : Bool
  node : ProcessorNode
  runs : Nat
  deriving DecidableEq

/-- Modelled from the spec: `CA_PROCESSOR_DATA[config.type].buildNode` lives in
`features/controlLayers/util/controlAdapters`, outside the visible sources.
The spec says the node-builder of the processor kind is applied to the
current image and configuration to produce the single graph node; the node
identity is determined by the processor kind. -/
def buildNode (image : ImageDTO) (config : ProcessorConfig) : ProcessorNode :=
  { id := config.type ++ "_processor_node"
    kind := config.type
    image_name := image.image_name
    is_intermediate := false }

/-- The enqueue argument built around the processor node: the node is spread
with `is_intermediate := true`, the batch has `prepend := true` and one run. -/
def mkEnqueueBatchArg (node : ProcessorNode) : BatchConfig :=
  { prepend := true
    node := { node with is_intermediate := true }
    runs := 1 }

/-- Result payload of a `socketInvocationComplete` event: image-typed
(`isImageOutput`) or anything else. -/
inductive InvResult where
  | image (image_name : String)
  | nonImage (desc : String)
  deriving DecidableEq

/-- Payload data of a `socketInvocationComplete` event. -/
structure InvData where
  queue_batch_id : String
  source_node_id : String
  result : InvResult
  deriving DecidableEq

/-- Redux actions the effect dispatches. -/
inductive Action where
  | caLayerProcessedImageChanged (layerId : String) (imageDTO : Option ImageDTO)
  | caLayerProcessorPendingBatchIdChanged (layerId : String) (batchId : Option String)
  | caLayerImageChanged (layerId : String) (imageDTO : Option ImageDTO)
  | addToast (title : String) (status : String)
  deriving DecidableEq

/-- Network requests the effect initiates, in order of initiation. -/
inductive NetCall where
  | cancelByBatchIds (batch_ids : List String)
  | enqueueBatch (arg : BatchConfig)
  | getImageDTOReq (image_name : String)
  deriving DecidableEq

/-- A thrown (non-abort) error value as the catch block classifies it:
an RTK-query HTTP rejection carries `data` and `status` fields; a `tsafe`
`assert` throws an `AssertionError` (an Object without those fields);
anything else is `otherErr`. -/
inductive ErrVal where
  | http (status : Nat)
  | assertionFail (msg : String)
  | otherErr
  deriving DecidableEq

/-- Outcome of awaiting `req.unwrap()` on the enqueue request: resolved
(with the optional `batch.batch_id`), rejected with an error value, or
rejected because the listener's abort signal fired during the await. -/
inductive EnqOutcome where
  | ok (batch_id : Option String)
  | err (e : ErrVal)
  | abort
  deriving DecidableEq

/-- Environment of one effect instance: outcomes of the asynchronous
awaits and the state snapshot read inside the abort handler. -/
structure Env where
  /-- Outcome of `await req.unwrap()` on the enqueue request. -/
  enqueue : EnqOutcome
  /-- Whether the abort signal fires while awaiting `take`. -/
  abortDuringTake : Bool
  /-- The `socketInvocationComplete` payloads delivered while waiting. -/
  events : List InvData
  /-- Result of `getImageDTO name`: `none` models a failed fetch. -/
  fetchDTO : String → Option ImageDTO
  /-- The layer's `processorPendingBatchId` as re-read from `getState()`
  inside the abort handler (it may have changed concurrently). -/
  pendingAtCatch : Option String
  /-- Whether the `cancelByBatchIds` request rejects. -/
  cancelBatchFails : Bool

/-- Overall fate of one effect instance. -/
inductive RunResult where
  | finished
  | canceled
  | crashed (msg : String)
  | hung
  deriving DecidableEq

/-- Trace of one effect instance. `main` is the actions dispatched on the
instance's own control path in order; `deferred` is the actions dispatched
later by the continuations of un-awaited `cancelProcessorBatch` calls;
`netcalls` is the network requests in order of initiation. -/
structure EffectResult where
  main : List Action
  deferred : List Action
  netcalls : List NetCall
  outcome : RunResult
  deriving DecidableEq

/-- `cancelProcessorBatch`: initiates `cancelByBatchIds` synchronously; the
`catch` swallows a rejection, and the `finally` always resets the request
and dispatches a pending-batch-id clear. Returns (calls initiated now,
actions dispatched by its continuation). -/
def cancelProcessorBatch (layerId batchId : String) (fails : Bool) :
    List NetCall × List Action :=
  if fails then
    ([NetCall.cancelByBatchIds [batchId]],
     [Action.caLayerProcessorPendingBatchIdChanged layerId none])
  else
    ([NetCall.cancelByBatchIds [batchId]],
     [Action.caLayerProcessorPendingBatchIdChanged layerId none])

/-- The `take` filter: first delivered `socketInvocationComplete` whose
`queue_batch_id` matches the enqueued batch and whose `source_node_id`
matches the processor node. -/
def findMatchingEvent (events : List InvData) (batchId nodeId : String) :
    Option InvData :=
  events.find? (fun ev => ev.queue_batch_id == batchId && ev.source_node_id == nodeId)

/-- Result of the effect's `try` block, from `await req.unwrap()` onward:
normal completion, a thrown error value, an abort-signal rejection, or an
unbounded wait for a matching completion event ( the `take` has no timeout). -/
inductive TryResult where
  | ok (acts : List Action) (calls : List NetCall)
  | thrown (acts : List Action) (calls : List NetCall) (e : ErrVal)
  | abortThrown (acts : List Action) (calls : List NetCall)
  | hung (acts : List Action) (calls : List NetCall)
  deriving DecidableEq

/-- The body of the effect's `try` block: unwrap the enqueue result, assert
the batch id is present, record it on the layer, `take` the matching
completion event, assert its result is image-typed, fetch the image DTO,
assert it exists, then record the processed image and clear the pending id. -/
def tryBody (layerId nodeId : String) (env : Env) : TryResult :=
  match env.enqueue with
  | .abort => .abortThrown [] []
  | .err e => .thrown [] [] e
  | .ok none => .thrown [] [] (.assertionFail "Batch ID not returned from queue")
  | .ok (some bid) =>
    let recorded := [Action.caLayerProcessorPendingBatchIdChanged layerId (some bid)]
    if env.abortDuringTake then .abortThrown recorded []
    else
      match findMatchingEvent env.events bid nodeId with
      | none => .hung recorded []
      | some ev =>
        match ev.result with
        | .nonImage d =>
          .thrown recorded [] (.assertionFail ("Processor did not return an image output, got: " ++ d))
        | .image nm =>
          match env.fetchDTO nm with
          | none =>
            .thrown recorded [NetCall.getImageDTOReq nm]
              (.assertionFail "Failed to fetch processor output image DTO")
          | some dto =>
            .ok (recorded ++
                  [Action.caLayerProcessedImageChanged layerId (some dto),
                   Action.caLayerProcessorPendingBatchIdChanged layerId none])
                [NetCall.getImageDTOReq nm]

/-- One instance of the auto-preprocess effect, from the end of the
`delay(DEBOUNCE_MS)` onward. `abortedDuringDelay` is whether the abort
signal fired during the quiet-period delay (the delay sits outside the
`try`, so that rejection propagates out of the effect with no side effect);
`layerAfterDelay` is the control-adapter layer found for the trigger's
layer id when state is re-read after the delay.

The source dispatches the processed-image clear when the image or config is
absent but does not return there; it then conditionally fires an un-awaited
`cancelProcessorBatch` and evaluates `CA_PROCESSOR_DATA[config.type]`, which
throws on a null config, as does the node builder applied to a null image
— both outside the `try`/`catch`, so the instance crashes. -/
def runEffect (abortedDuringDelay : Bool)
    (layerAfterDelay : Option ControlAdapterLayer) (env : Env) : EffectResult :=
  if abortedDuringDelay then ⟨[], [], [], .canceled⟩
  else
    match layerAfterDelay with
    | none => ⟨[], [], [], .finished⟩
    | some layer =>
      let clearActs : List Action :=
        if layer.image.isNone || layer.processorConfig.isNone then
          [Action.caLayerProcessedImageChanged layer.id none]
        else []
      let cancelPart : List NetCall × List Action :=
        match layer.processorPendingBatchId with
        | some b => cancelProcessorBatch layer.id b env.cancelBatchFails
        | none => ([], [])
      match layer.processorConfig with
      | none =>
        ⟨clearActs, cancelPart.2, cancelPart.1,
         .crashed "TypeError: cannot read property type of a null processorConfig"⟩
      | some config =>
        match layer.image with
        | none =>
          ⟨clearActs, cancelPart.2, cancelPart.1,
           .crashed "TypeError: buildNode applied to a null image"⟩
        | some image =>
          let processorNode := buildNode image config
          let enqueueBatchArg := mkEnqueueBatchArg processorNode
          let preCalls := cancelPart.1 ++ [NetCall.enqueueBatch enqueueBatchArg]
          match tryBody layer.id processorNode.id env with
          | .ok acts calls =>
            ⟨clearActs ++ acts, cancelPart.2, preCalls ++ calls, .finished⟩
          | .hung acts calls =>
            ⟨clearActs ++ acts, cancelPart.2, preCalls ++ calls, .hung⟩
          | .abortThrown acts calls =>
            match env.pendingAtCatch with
            | some b =>
              let c := cancelProcessorBatch layer.id b env.cancelBatchFails
              ⟨clearActs ++ acts, cancelPart.2 ++ c.2, preCalls ++ calls ++ c.1, .finished⟩
            | none => ⟨clearActs ++ acts, cancelPart.2, preCalls ++ calls, .finished⟩
          | .thrown acts calls e =>
            match e with
            | .http s =>
              if s = 403 then
                ⟨clearActs ++ acts ++ [Action.caLayerImageChanged layer.id none],
                 cancelPart.2, preCalls ++ calls, .finished⟩
              else
                ⟨clearActs ++ acts ++ [Action.addToast "queue.graphFailedToQueue" "error"],
                 cancelPart.2, preCalls ++ calls, .finished⟩
            | _ =>
              ⟨clearActs ++ acts ++ [Action.addToast "queue.graphFailedToQueue" "error"],
               cancelPart.2, preCalls ++ calls, .finished⟩

/-- Apply one dispatched action to the layer's slice of state. -/
def applyAction (layer : ControlAdapterLayer) (a : Action) : ControlAdapterLayer :=
  match a with
  | .caLayerProcessedImageChanged lid dto =>
    if lid = layer.id then { layer with processedImage := dto } else layer
  | .caLayerProcessorPendingBatchIdChanged lid b =>
    if lid = layer.id then { layer with processorPendingBatchId := b } else layer
  | .caLayerImageChanged lid dto =>
    if lid = layer.id then { layer with image := dto } else layer
  | .addToast _ _ => layer

/-- The layer's state after the instance's own dispatches and the deferred
continuation dispatches have all been applied. -/
def finalLayer (layer : ControlAdapterLayer) (r : EffectResult) : ControlAdapterLayer :=
  (r.main ++ r.deferred).foldl applyAction layer

/-- The quiet-period length. -/
def DEBOUNCE_MS : Nat := 300

/-- Modelled from the spec: the listener middleware (outside the visible
sources) runs `cancelActiveListeners` on each new matching trigger, so an
instance triggered at `t1` is aborted during its quiet-period delay exactly
when a newer matching trigger arrives at some `t2 < t1 + DEBOUNCE_MS`. -/
def canceledDuringDelay (t1 t2 : Nat) : Bool :=
  decide (t2 < t1 + DEBOUNCE_MS)

/-! App-info endpoint declarations (`appInfo.ts`). -/

/-- One RTK-query endpoint declaration: path, method, query vs mutation,
and its cache tags. -/
structure Endpoint where
  name : String
  url : String
  method : String
  isQuery : Bool
  providesTags : List String
  invalidatesTags : List String
  deriving DecidableEq

def getAppVersion : Endpoint :=
  ⟨"getAppVersion", "app/version", "GET", true, ["FetchOnReconnect"], []⟩

def getAppDeps : Endpoint :=
  ⟨"getAppDeps", "app/app_deps", "GET", true, ["FetchOnReconnect"], []⟩

def getAppConfig : Endpoint :=
  ⟨"getAppConfig", "app/config", "GET", true, ["FetchOnReconnect"], []⟩

def getInvocationCacheStatus : Endpoint :=
  ⟨"getInvocationCacheStatus", "app/invocation_cache/status", "GET", true,
   ["InvocationCacheStatus", "FetchOnReconnect"], []⟩

def clearInvocationCache : Endpoint :=
  ⟨"clearInvocationCache", "app/invocation_cache", "DELETE", false, [],
   ["InvocationCacheStatus"]⟩

def enableInvocationCache : Endpoint :=
  ⟨"enableInvocationCache", "app/invocation_cache/enable", "PUT", false, [],
   ["InvocationCacheStatus"]⟩

def disableInvocationCache : Endpoint :=
  ⟨"disableInvocationCache", "app/invocation_cache/disable", "PUT", false, [],
   ["InvocationCacheStatus"]⟩

def appInfoEndpoints : List Endpoint :=
  [getAppVersion, getAppDeps, getAppConfig, getInvocationCacheStatus,
   clearInvocationCache, enableInvocationCache, disableInvocationCache]

def isMutation (e : Endpoint) : Bool := !e.isQuery

def invalidatesCacheStatus (e : Endpoint) : Bool :=
  e.invalidatesTags.contains "InvocationCacheStatus"

def providesFetchOnReconnect (e : Endpoint) : Bool :=
  e.providesTags.contains "FetchOnReconnect"

/-! Concrete layers and environments used to evaluate the model. -/

def wLayer : ControlAdapterLayer := ⟨"L1", some ⟨"I1"⟩, some ⟨"canny"⟩, none, none⟩

def wLayerPend : ControlAdapterLayer := ⟨"L1", some ⟨"I1"⟩, some ⟨"canny"⟩, none, some "B0"⟩

def wEnvIdle : Env := ⟨.abort, false, [], fun _ => none, none, false⟩

def wEnvSuccess : Env :=
  ⟨.ok (some "B1"), false, [⟨"B1", "canny_processor_node", .image "out.png"⟩],
   fun nm => if nm = "out.png" then some ⟨"out.png"⟩ else none, none, false⟩

def wEnvNoBatchId : Env := ⟨.ok none, false, [], fun _ => none, none, false⟩

def wEnvNonImage : Env :=
  ⟨.ok (some "B1"), false, [⟨"B1", "canny_processor_node", .nonImage "latents_output"⟩],
   fun _ => none, none, false⟩

def wEnvFetchFail : Env :=
  ⟨.ok (some "B1"), false, [⟨"B1", "canny_processor_node", .image "out.png"⟩],
   fun _ => none, none, false⟩

def wEnvErr403 : Env := ⟨.err (.http 403), false, [], fun _ => none, none, false⟩

def wEnvErr500 : Env := ⟨.err (.http 500), false, [], fun _ => none, none, false⟩

def wEnvAbortTake : Env := ⟨.ok (some "B1"), true, [], fun _ => none, some "B9", false⟩

/-! Theorems settling the claims. -/

/-- Helper: on the thrown path, the try block has dispatched either nothing
or exactly the recording of the new pending batch id — in particular no
toast, no image change and no processed-image write. -/
theorem tryBody_thrown_acts (lid nid : String) (env : Env) (acts : List Action)
    (calls : List NetCall) (e : ErrVal)
    (h : tryBody lid nid env = .thrown acts calls e) :
    acts = [] ∨ ∃ b, acts = [Action.caLayerProcessorPendingBatchIdChanged lid (some b)] := by
  unfold tryBody at h
  split at h
  · exact TryResult.noConfusion h
  · injection h with h1 h2 h3
    exact Or.inl h1.symm
  · injection h with h1 h2 h3
    exact Or.inl h1.symm
  · dsimp only at h
    split at h
    · exact TryResult.noConfusion h
    · split at h
      · exact TryResult.noConfusion h
      · split at h
        · injection h with h1 h2 h3
          exact Or.inr ⟨_, h1.symm⟩
        · split at h
          · injection h with h1 h2 h3
            exact Or.inr ⟨_, h1.symm⟩
          · exact TryResult.noConfusion h

/-- Helper: when the enqueue resolved with a batch id and the try block
later threw, the only action it had dispatched is the recording of that
batch id on the layer. -/
theorem tryBody_ok_some_thrown_acts (lid nid : String) (env : Env) (bid : String)
    (acts : List Action) (calls : List NetCall) (e : ErrVal)
    (henq : env.enqueue = .ok (some bid))
    (h : tryBody lid nid env = .thrown acts calls e) :
    acts = [Action.caLayerProcessorPendingBatchIdChanged lid (some bid)] := by
  unfold tryBody at h
  rw [henq] at h
  dsimp only at h
  split at h
  · exact TryResult.noConfusion h
  · split at h
    · exact TryResult.noConfusion h
    · split at h
      · injection h with h1 h2 h3
        exact h1.symm
      · split at h
        · injection h with h1 h2 h3
          exact h1.symm
        · exact TryResult.noConfusion h

/-- Claim C2: for every run in which the batch submission succeeds with a
batch id, a matching completion event arrives carrying an image-typed
result, and the image-descriptor fetch succeeds, the effect sets the
layer's processed-output image to the fetched descriptor and sets the
layer's pending-batch identifier to null (the effect finishes normally). -/
theorem C2_success_path_reconciles_layer
    (layer : ControlAdapterLayer) (img : ImageDTO) (cfg : ProcessorConfig)
    (env : Env) (bid : String) (ev : InvData) (nm : String) (dto : ImageDTO)
    (himg : layer.image = some img) (hcfg : layer.processorConfig = some cfg)
    (henq : env.enqueue = .ok (some bid))
    (htake : env.abortDuringTake = false)
    (hfind : findMatchingEvent env.events bid (buildNode img cfg).id = some ev)
    (hres : ev.result = .image nm)
    (hfetch : env.fetchDTO nm = some dto) :
    (finalLayer layer (runEffect false (some layer) env)).processedImage = some dto ∧
    (finalLayer layer (runEffect false (some layer) env)).processorPendingBatchId = none ∧
    (runEffect false (some layer) env).outcome = .finished := by
  obtain ⟨lid, limg, lcfg, lprocessed, lpend⟩ := layer
  simp only at himg hcfg
  subst himg hcfg
  have htb : tryBody lid (buildNode img cfg).id env =
      .ok [Action.caLayerProcessorPendingBatchIdChanged lid (some bid),
           Action.caLayerProcessedImageChanged lid (some dto),
           Action.caLayerProcessorPendingBatchIdChanged lid none]
          [NetCall.getImageDTOReq nm] := by
    simp [tryBody, henq, htake, hfind, hres, hfetch]
  rcases lpend with _ | b0 <;>
    simp [runEffect, htb, finalLayer, applyAction, cancelProcessorBatch]

theorem C2_witness :
    wLayer.image = some ⟨"I1"⟩ ∧
    (finalLayer wLayer (runEffect false (some wLayer) wEnvSuccess)).processedImage = some ⟨"out.png"⟩ ∧
    (finalLayer wLayer (runEffect false (some wLayer) wEnvSuccess)).processorPendingBatchId = none ∧
    (runEffect false (some wLayer) wEnvSuccess).outcome = .finished :=
  ⟨rfl,
   C2_success_path_reconciles_layer wLayer ⟨"I1"⟩ ⟨"canny"⟩ wEnvSuccess "B1"
     ⟨"B1", "canny_processor_node", .image "out.png"⟩ "out.png" ⟨"out.png"⟩
     rfl rfl rfl rfl (by decide) rfl rfl⟩

/-- Claim C3: for every non-cancellation failure of the sequence, if the
error is an access-denied (status 403) response the layer's source image is
set to null and no toast is dispatched; for any other error an error toast
is dispatched and the layer's source image is left unchanged. -/
theorem C3_error_branching
    (layer : ControlAdapterLayer) (img : ImageDTO) (cfg : ProcessorConfig)
    (env : Env) (acts : List Action) (calls : List NetCall) (e : ErrVal)
    (himg : layer.image = some img) (hcfg : layer.processorConfig = some cfg)
    (ht : tryBody layer.id (buildNode img cfg).id env = .thrown acts calls e) :
    (e = .http 403 →
      (finalLayer layer (runEffect false (some layer) env)).image = none ∧
      ∀ t s, Action.addToast t s ∉
        (runEffect false (some layer) env).main ++ (runEffect false (some layer) env).deferred) ∧
    (e ≠ .http 403 →
      Action.addToast "queue.graphFailedToQueue" "error" ∈ (runEffect false (some layer) env).main ∧
      (finalLayer layer (runEffect false (some layer) env)).image = layer.image) := by
  obtain ⟨lid, limg, lcfg, lprocessed, lpend⟩ := layer
  simp only at himg hcfg ht ⊢
  subst himg hcfg
  refine ⟨?_, ?_⟩
  · rintro rfl
    rcases tryBody_thrown_acts _ _ _ _ _ _ ht with hacts | ⟨b, hacts⟩ <;> subst hacts <;>
      rcases lpend with _ | b0 <;>
        simp [runEffect, ht, finalLayer, applyAction, cancelProcessorBatch]
  · intro h403
    rcases e with s | m | _
    · have hs : s ≠ 403 := fun hs => h403 (by rw [hs])
      rcases tryBody_thrown_acts _ _ _ _ _ _ ht with hacts | ⟨b, hacts⟩ <;> subst hacts <;>
        rcases lpend with _ | b0 <;>
          simp [runEffect, ht, hs, finalLayer, applyAction, cancelProcessorBatch]
    · rcases tryBody_thrown_acts _ _ _ _ _ _ ht with hacts | ⟨b, hacts⟩ <;> subst hacts <;>
        rcases lpend with _ | b0 <;>
          simp [runEffect, ht, finalLayer, applyAction, cancelProcessorBatch]
    · rcases tryBody_thrown_acts _ _ _ _ _ _ ht with hacts | ⟨b, hacts⟩ <;> subst hacts <;>
        rcases lpend with _ | b0 <;>
          simp [runEffect, ht, finalLayer, applyAction, cancelProcessorBatch]

theorem C3_witness :
    ((finalLayer wLayer (runEffect false (some wLayer) wEnvErr403)).image = none ∧
      ∀ t s, Action.addToast t s ∉
        (runEffect false (some wLayer) wEnvErr403).main ++ (runEffect false (some wLayer) wEnvErr403).deferred) ∧
    (Action.addToast "queue.graphFailedToQueue" "error" ∈ (runEffect false (some wLayer) wEnvErr500).main ∧
      (finalLayer wLayer (runEffect false (some wLayer) wEnvErr500)).image = wLayer.image) :=
  ⟨(C3_error_branching wLayer ⟨"I1"⟩ ⟨"canny"⟩ wEnvErr403 [] [] (.http 403) rfl rfl rfl).1 rfl,
   (C3_error_branching wLayer ⟨"I1"⟩ ⟨"canny"⟩ wEnvErr500 [] [] (.http 500) rfl rfl rfl).2 (by decide)⟩

/-- Helper: whenever a run reaches submission (layer present with image and
config, prior pending batch id recorded), the network calls are the prior
batch's cancellation, then the enqueue of the new batch, then whatever the
try block initiated. -/
theorem runEffect_netcalls_pending
    (lid : String) (img : ImageDTO) (cfg : ProcessorConfig)
    (lprocessed : Option ImageDTO) (b0 : String) (env : Env) :
    ∃ rest, (runEffect false (some ⟨lid, some img, some cfg, lprocessed, some b0⟩) env).netcalls =
      NetCall.cancelByBatchIds [b0] ::
        NetCall.enqueueBatch (mkEnqueueBatchArg (buildNode img cfg)) :: rest := by
  cases htb : tryBody lid (buildNode img cfg).id env with
  | ok acts calls =>
    exact ⟨calls, by simp [runEffect, htb, cancelProcessorBatch]⟩
  | hung acts calls =>
    exact ⟨calls, by simp [runEffect, htb, cancelProcessorBatch]⟩
  | abortThrown acts calls =>
    rcases hp : env.pendingAtCatch with _ | b
    · exact ⟨calls, by simp [runEffect, htb, hp, cancelProcessorBatch]⟩
    · exact ⟨calls ++ [NetCall.cancelByBatchIds [b]],
        by simp [runEffect, htb, hp, cancelProcessorBatch]⟩
  | thrown acts calls e =>
    rcases e with s | m | _
    · by_cases hs : s = 403 <;>
        exact ⟨calls, by simp [runEffect, htb, hs, cancelProcessorBatch]⟩
    · exact ⟨calls, by simp [runEffect, htb, cancelProcessorBatch]⟩
    · exact ⟨calls, by simp [runEffect, htb, cancelProcessorBatch]⟩

/-- Claim C4: for every run that reaches submission while the layer has a
recorded pending-batch identifier, the cancellation request for that prior
batch id is initiated before the new batch submission is initiated, the
cancellation's failure is ignored (`cancelProcessorBatch` yields the same
trace whether its request rejects or resolves), and the recorded identifier
is cleared by the cancellation's continuation. -/
theorem C4_prior_pending_batch_cancel
    (layer : ControlAdapterLayer) (img : ImageDTO) (cfg : ProcessorConfig)
    (env : Env) (b0 : String)
    (himg : layer.image = some img) (hcfg : layer.processorConfig = some cfg)
    (hpend : layer.processorPendingBatchId = some b0) :
    (∃ rest, (runEffect false (some layer) env).netcalls =
      NetCall.cancelByBatchIds [b0] ::
        NetCall.enqueueBatch (mkEnqueueBatchArg (buildNode img cfg)) :: rest) ∧
    Action.caLayerProcessorPendingBatchIdChanged layer.id none ∈
      (runEffect false (some layer) env).deferred ∧
    (∀ f : Bool, cancelProcessorBatch layer.id b0 f = cancelProcessorBatch layer.id b0 true) := by
  obtain ⟨lid, limg, lcfg, lprocessed, lpend⟩ := layer
  simp only at himg hcfg hpend ⊢
  subst himg hcfg hpend
  refine ⟨runEffect_netcalls_pending lid img cfg lprocessed b0 env, ?_,
    fun f => by cases f <;> rfl⟩
  cases htb : tryBody lid (buildNode img cfg).id env with
  | ok acts calls => simp [runEffect, htb, cancelProcessorBatch]
  | hung acts calls => simp [runEffect, htb, cancelProcessorBatch]
  | abortThrown acts calls =>
    rcases hp : env.pendingAtCatch with _ | b
    · simp [runEffect, htb, hp, cancelProcessorBatch]
    · simp [runEffect, htb, hp, cancelProcessorBatch]
  | thrown acts calls e =>
    rcases e with s | m | _
    · by_cases hs : s = 403 <;> simp [runEffect, htb, hs, cancelProcessorBatch]
    · simp [runEffect, htb, cancelProcessorBatch]
    · simp [runEffect, htb, cancelProcessorBatch]

theorem C4_witness :
    (∃ rest, (runEffect false (some wLayerPend) wEnvSuccess).netcalls =
      NetCall.cancelByBatchIds ["B0"] ::
        NetCall.enqueueBatch (mkEnqueueBatchArg (buildNode ⟨"I1"⟩ ⟨"canny"⟩)) :: rest) ∧
    Action.caLayerProcessorPendingBatchIdChanged "L1" none ∈
      (runEffect false (some wLayerPend) wEnvSuccess).deferred ∧
    (∀ f : Bool, cancelProcessorBatch "L1" "B0" f = cancelProcessorBatch "L1" "B0" true) :=
  C4_prior_pending_batch_cancel wLayerPend ⟨"I1"⟩ ⟨"canny"⟩ wEnvSuccess "B0" rfl rfl rfl

/-- Claim C5: each of the three contract violations — a successful enqueue
response without a batch identifier, a completion result that is not
image-typed, and a failed image-descriptor fetch — makes the try block throw
an assertion failure; the surrounding catch surfaces it as an error toast
rather than silently continuing, and in each case the full run dispatches no
processed-output image write. -/
theorem C5_contract_violations_assert
    (layer : ControlAdapterLayer) (img : ImageDTO) (cfg : ProcessorConfig) (env : Env)
    (himg : layer.image = some img) (hcfg : layer.processorConfig = some cfg)
    (hpend : layer.processorPendingBatchId = none) :
    (env.enqueue = .ok none →
      tryBody layer.id (buildNode img cfg).id env =
        .thrown [] [] (.assertionFail "Batch ID not returned from queue") ∧
      runEffect false (some layer) env =
        ⟨[Action.addToast "queue.graphFailedToQueue" "error"], [],
         [NetCall.enqueueBatch (mkEnqueueBatchArg (buildNode img cfg))], .finished⟩) ∧
    (∀ bid ev d, env.enqueue = .ok (some bid) → env.abortDuringTake = false →
      findMatchingEvent env.events bid (buildNode img cfg).id = some ev →
      ev.result = .nonImage d →
      tryBody layer.id (buildNode img cfg).id env =
        .thrown [Action.caLayerProcessorPendingBatchIdChanged layer.id (some bid)] []
          (.assertionFail ("Processor did not return an image output, got: " ++ d)) ∧
      runEffect false (some layer) env =
        ⟨[Action.caLayerProcessorPendingBatchIdChanged layer.id (some bid),
          Action.addToast "queue.graphFailedToQueue" "error"], [],
         [NetCall.enqueueBatch (mkEnqueueBatchArg (buildNode img cfg))], .finished⟩) ∧
    (∀ bid ev nm, env.enqueue = .ok (some bid) → env.abortDuringTake = false →
      findMatchingEvent env.events bid (buildNode img cfg).id = some ev →
      ev.result = .image nm → env.fetchDTO nm = none →
      tryBody layer.id (buildNode img cfg).id env =
        .thrown [Action.caLayerProcessorPendingBatchIdChanged layer.id (some bid)]
          [NetCall.getImageDTOReq nm]
          (.assertionFail "Failed to fetch processor output image DTO") ∧
      runEffect false (some layer) env =
        ⟨[Action.caLayerProcessorPendingBatchIdChanged layer.id (some bid),
          Action.addToast "queue.graphFailedToQueue" "error"], [],
         [NetCall.enqueueBatch (mkEnqueueBatchArg (buildNode img cfg)),
          NetCall.getImageDTOReq nm], .finished⟩) := by
  obtain ⟨lid, limg, lcfg, lprocessed, lpend⟩ := layer
  simp only at himg hcfg hpend ⊢
  subst himg hcfg hpend
  refine ⟨?_, ?_, ?_⟩
  · intro henq
    have htb : tryBody lid (buildNode img cfg).id env =
        .thrown [] [] (.assertionFail "Batch ID not returned from queue") := by
      simp [tryBody, henq]
    exact ⟨htb, by simp [runEffect, htb]⟩
  · intro bid ev d henq htake hfind hres
    have htb : tryBody lid (buildNode img cfg).id env =
        .thrown [Action.caLayerProcessorPendingBatchIdChanged lid (some bid)] []
          (.assertionFail ("Processor did not return an image output, got: " ++ d)) := by
      simp [tryBody, henq, htake, hfind, hres]
    exact ⟨htb, by simp [runEffect, htb]⟩
  · intro bid ev nm henq htake hfind hres hfetch
    have htb : tryBody lid (buildNode img cfg).id env =
        .thrown [Action.caLayerProcessorPendingBatchIdChanged lid (some bid)]
          [NetCall.getImageDTOReq nm]
          (.assertionFail "Failed to fetch processor output image DTO") := by
      simp [tryBody, henq, htake, hfind, hres, hfetch]
    exact ⟨htb, by simp [runEffect, htb]⟩

theorem C5_witness :
    (tryBody "L1" (buildNode ⟨"I1"⟩ ⟨"canny"⟩).id wEnvNoBatchId =
      .thrown [] [] (.assertionFail "Batch ID not returned from queue")) ∧
    (runEffect false (some wLayer) wEnvNonImage =
      ⟨[Action.caLayerProcessorPendingBatchIdChanged "L1" (some "B1"),
        Action.addToast "queue.graphFailedToQueue" "error"], [],
       [NetCall.enqueueBatch (mkEnqueueBatchArg (buildNode ⟨"I1"⟩ ⟨"canny"⟩))], .finished⟩) ∧
    (runEffect false (some wLayer) wEnvFetchFail =
      ⟨[Action.caLayerProcessorPendingBatchIdChanged "L1" (some "B1"),
        Action.addToast "queue.graphFailedToQueue" "error"], [],
       [NetCall.enqueueBatch (mkEnqueueBatchArg (buildNode ⟨"I1"⟩ ⟨"canny"⟩)),
        NetCall.getImageDTOReq "out.png"], .finished⟩) :=
  ⟨((C5_contract_violations_assert wLayer ⟨"I1"⟩ ⟨"canny"⟩ wEnvNoBatchId rfl rfl rfl).1 rfl).1,
   ((C5_contract_violations_assert wLayer ⟨"I1"⟩ ⟨"canny"⟩ wEnvNonImage rfl rfl rfl).2.1
      "B1" ⟨"B1", "canny_processor_node", .nonImage "latents_output"⟩ "latents_output"
      rfl rfl (by decide) rfl).2,
   ((C5_contract_violations_assert wLayer ⟨"I1"⟩ ⟨"canny"⟩ wEnvFetchFail rfl rfl rfl).2.2
      "B1" ⟨"B1", "canny_processor_node", .image "out.png"⟩ "out.png"
      rfl rfl (by decide) rfl rfl).2⟩

/-- Claim C7: for every instance aborted while awaiting submission or the
completion notification, the effect re-reads the layer's pending-batch
identifier from current state at cancellation time and, since one is
present, issues a best-effort cancellation for that identifier (which may
differ from the one captured at submission time); this path does not
re-throw — the instance finishes normally, and the compensating
cancellation's continuation clears the pending id. -/
theorem C7_abort_compensating_cancel
    (layer : ControlAdapterLayer) (img : ImageDTO) (cfg : ProcessorConfig)
    (env : Env) (b : String)
    (himg : layer.image = some img) (hcfg : layer.processorConfig = some cfg)
    (habort : env.enqueue = .abort ∨
      ∃ bid, env.enqueue = .ok (some bid) ∧ env.abortDuringTake = true)
    (hcur : env.pendingAtCatch = some b) :
    (runEffect false (some layer) env).outcome = .finished ∧
    NetCall.cancelByBatchIds [b] ∈ (runEffect false (some layer) env).netcalls ∧
    Action.caLayerProcessorPendingBatchIdChanged layer.id none ∈
      (runEffect false (some layer) env).deferred := by
  obtain ⟨lid, limg, lcfg, lprocessed, lpend⟩ := layer
  simp only at himg hcfg ⊢
  subst himg hcfg
  have htb : ∃ acts, tryBody lid (buildNode img cfg).id env = .abortThrown acts [] := by
    rcases habort with h | ⟨bid, h1, h2⟩
    · exact ⟨[], by simp [tryBody, h]⟩
    · exact ⟨[Action.caLayerProcessorPendingBatchIdChanged lid (some bid)],
        by simp [tryBody, h1, h2]⟩
  obtain ⟨acts, htb⟩ := htb
  rcases lpend with _ | b0 <;>
    simp [runEffect, htb, hcur, cancelProcessorBatch]

theorem C7_witness :
    (runEffect false (some wLayer) wEnvAbortTake).outcome = .finished ∧
    NetCall.cancelByBatchIds ["B9"] ∈ (runEffect false (some wLayer) wEnvAbortTake).netcalls ∧
    Action.caLayerProcessorPendingBatchIdChanged "L1" none ∈
      (runEffect false (some wLayer) wEnvAbortTake).deferred :=
  C7_abort_compensating_cancel wLayer ⟨"I1"⟩ ⟨"canny"⟩ wEnvAbortTake "B9"
    rfl rfl (Or.inr ⟨"B1", rfl, rfl⟩) rfl

/-- Claim C10: for every non-cancellation, non-403 failure that occurs
after the submission succeeded and the new batch identifier was recorded on
the layer, the error path dispatches nothing that clears the pending-batch
identifier: when no prior pending batch existed (so no un-awaited prior
cancellation is in flight) the layer's pending-batch identifier is left set
to the new batch identifier. -/
theorem C10_error_path_leaves_pending_batch_id
    (layer : ControlAdapterLayer) (img : ImageDTO) (cfg : ProcessorConfig)
    (env : Env) (bid : String) (acts : List Action) (calls : List NetCall) (e : ErrVal)
    (himg : layer.image = some img) (hcfg : layer.processorConfig = some cfg)
    (hpend : layer.processorPendingBatchId = none)
    (henq : env.enqueue = .ok (some bid))
    (ht : tryBody layer.id (buildNode img cfg).id env = .thrown acts calls e)
    (h403 : e ≠ .http 403) :
    acts = [Action.caLayerProcessorPendingBatchIdChanged layer.id (some bid)] ∧
    (finalLayer layer (runEffect false (some layer) env)).processorPendingBatchId = some bid := by
  obtain ⟨lid, limg, lcfg, lprocessed, lpend⟩ := layer
  simp only at himg hcfg hpend ht ⊢
  subst himg hcfg hpend
  have hacts := tryBody_ok_some_thrown_acts lid (buildNode img cfg).id env bid acts calls e henq ht
  subst hacts
  refine ⟨rfl, ?_⟩
  rcases e with s | m | _
  · have hs : s ≠ 403 := fun hs => h403 (by rw [hs])
    simp [runEffect, ht, hs, finalLayer, applyAction]
  · simp [runEffect, ht, finalLayer, applyAction]
  · simp [runEffect, ht, finalLayer, applyAction]

theorem C10_witness :
    [Action.caLayerProcessorPendingBatchIdChanged "L1" (some "B1")] =
      [Action.caLayerProcessorPendingBatchIdChanged "L1" (some "B1")] ∧
    (finalLayer wLayer (runEffect false (some wLayer) wEnvNonImage)).processorPendingBatchId =
      some "B1" :=
  C10_error_path_leaves_pending_batch_id wLayer ⟨"I1"⟩ ⟨"canny"⟩ wEnvNonImage "B1"
    [Action.caLayerProcessorPendingBatchIdChanged "L1" (some "B1")] []
    (.assertionFail ("Processor did not return an image output, got: " ++ "latents_output"))
    rfl rfl rfl rfl (by decide) (by decide)

/-- Claim C9: for every trigger where, after the quiet period, no
control-adapter layer with the triggering layer identifier exists in
current state, the effect returns immediately with no state writes and no
network calls. -/
theorem C9_missing_layer_no_effects (env : Env) :
    runEffect false none env = ⟨[], [], [], .finished⟩ := rfl

/-- Claim C1, evaluated on the code: after the quiet period, the layer
exists with a source image but a null processor configuration and a pending
batch id. The effect does dispatch the processed-image clear, but the claim
says it then stops with no further work; the code misses the early return:
it fires the stray batch cancellation for the pending id and then crashes
with an uncaught TypeError reading `config.type` outside the try block,
contradicting its own following comment that a processor is selected. -/
theorem C1_missing_return_code_eval :
    runEffect false (some ⟨"L1", some ⟨"I1"⟩, none, some ⟨"old"⟩, some "B0"⟩) wEnvIdle =
    ⟨[Action.caLayerProcessedImageChanged "L1" none],
     [Action.caLayerProcessorPendingBatchIdChanged "L1" none],
     [NetCall.cancelByBatchIds ["B0"]],
     .crashed "TypeError: cannot read property type of a null processorConfig"⟩ := by
  decide

/-- Claim C6: for any two matching trigger events fired within the 300-unit
quiet period, the first instance is canceled during its wait and performs no
state mutation and no network call; only the second trigger's work executes. -/
theorem C6_second_trigger_within_quiet_period_cancels_first
    (t1 t2 : Nat) (l : Option ControlAdapterLayer) (env : Env)
    (h : t2 < t1 + DEBOUNCE_MS) :
    runEffect (canceledDuringDelay t1 t2) l env = ⟨[], [], [], .canceled⟩ := by
  have hc : canceledDuringDelay t1 t2 = true := decide_eq_true h
  rw [hc]
  rfl

theorem C6_witness :
    100 < 0 + DEBOUNCE_MS ∧
    runEffect (canceledDuringDelay 0 100) (some wLayer) wEnvSuccess = ⟨[], [], [], .canceled⟩ :=
  ⟨by decide,
   C6_second_trigger_within_quiet_period_cancels_first 0 100 (some wLayer) wEnvSuccess (by decide)⟩

/-- Claim C8 as stated is false: `getInvocationCacheStatus` is one of the
four named cache-control operations, but it is a query, not a mutation, and
it invalidates nothing (it provides the `InvocationCacheStatus` tag instead). -/
theorem C8_counterexample_status_not_mutation :
    ¬ ((isMutation clearInvocationCache && invalidatesCacheStatus clearInvocationCache &&
        isMutation enableInvocationCache && invalidatesCacheStatus enableInvocationCache &&
        isMutation disableInvocationCache && invalidatesCacheStatus disableInvocationCache &&
        isMutation getInvocationCacheStatus && invalidatesCacheStatus getInvocationCacheStatus) = true) := by
  decide

/-- Claim C8 amended: every read endpoint of the app-info client is tagged
for refresh-on-reconnect, and the three cache-control mutations (clear,
enable, disable) each invalidate the invocation-cache-status read, while the
status operation is a read that provides that tag. -/
theorem C8_amended_tags :
    (appInfoEndpoints.all fun e => !e.isQuery || providesFetchOnReconnect e) = true ∧
    ([clearInvocationCache, enableInvocationCache, disableInvocationCache].all
      fun e => isMutation e && invalidatesCacheStatus e) = true ∧
    getInvocationCacheStatus.isQuery = true ∧
    invalidatesCacheStatus getInvocationCacheStatus = false ∧
    getInvocationCacheStatus.providesTags.contains "InvocationCacheStatus" = true := by
  decide

end InvokeAI
